import Mathlib

/-!
AB0805 real-time-clock driver

A shallow embedding of `AB0805.cpp` / `AB0805.h`.

* Machine integers are natural numbers; every store into a `uint8_t` is reduced
  modulo 256 and every store into a `uint16_t` modulo 65536.
* The device is a register file (register address ↦ byte) behind a two-wire
  bus; every transaction the driver issues is appended to a log, so "no bus
  write" and "no bus read" are statements about that log.
* A C++ method `T AB0805::f(args)` becomes `AB0805.f self args`, returning the
  new handle state (and the returned value, for a getter).
-/

/-! ## Register map and bit positions (`AB0805.h`) -/

abbrev AB0805_ADDRESS : Nat := 0x69
abbrev AB0805_DEFAULT_ADDRESS : Nat := 0x69

abbrev AB0805_RA_HUNDREDTHS : Nat := 0x00
abbrev AB0805_RA_SECONDS : Nat := 0x01
abbrev AB0805_RA_MINUTES : Nat := 0x02
abbrev AB0805_RA_HOURS : Nat := 0x03
abbrev AB0805_RA_DATE : Nat := 0x04
abbrev AB0805_RA_MONTH : Nat := 0x05
abbrev AB0805_RA_YEAR : Nat := 0x06
abbrev AB0805_RA_DAY : Nat := 0x07

abbrev AB0805_RA_STATUS : Nat := 0x0F
abbrev AB0805_RA_CONTROL1 : Nat := 0x10
abbrev AB0805_RA_CONTROL2 : Nat := 0x11
abbrev AB0805_RA_OSC_CONTROL : Nat := 0x1C
abbrev AB0805_RA_OSC_STATUS : Nat := 0x1D
abbrev AB0805_RA_CONFIG_KEY : Nat := 0x1F
abbrev AB0805_RA_ID0 : Nat := 0x28
abbrev AB0805_RA_ID1 : Nat := 0x29

abbrev AB0805_HOURS_AMPM_BIT : Nat := 5
abbrev AB0805_DAY_BIT : Nat := 2
abbrev AB0805_DAY_LENGTH : Nat := 3
abbrev AB0805_CONTROL1_STOP_BIT : Nat := 7
abbrev AB0805_CONTROL1_12OR24_BIT : Nat := 6
abbrev AB0805_OSC_CONTROL_OSC_SEL : Nat := 7

/-! ## The bus and the device's register file -/

/-- One transaction on the two-wire bus: a register read, or a register write
together with the byte written. -/
inductive BusOp where
  | read (devAddr regAddr : Nat)
  | write (devAddr regAddr data : Nat)
  deriving DecidableEq

/-- The far side of the bus: the chip's register file (register address ↦ byte)
and the transactions issued so far, oldest first. -/
structure Bus where
  regs : Nat → Nat
  log : List BusOp

/-- The C expression `b & ~m` on a byte `b`: the bits of `m` cleared in `b`. -/
def andNot (b m : Nat) : Nat := b - (b &&& m)

namespace I2Cdev

/-- What a read primitive hands back: its return code (`count`, the number of
bytes read), the value it stores through its `data` pointer, and the bus. -/
structure ReadResult where
  count : Nat
  data : Nat
  bus : Bus

/-- Modelled from the spec: the bus-access collaborator `I2Cdev` (§6), which is
not among the driver's sources. `readByte(devAddr, regAddr, data)` stores the
register byte through `data`, which is where the driver's accessors take it
from (`buffer[0]`). The value of the call itself is the library's return code
(the specification's "return codes", which the driver does not check): the
number of bytes read, 1 for a completed read; the register store never fails. -/
def readByte (bus : Bus) (devAddr regAddr : Nat) : ReadResult :=
  { count := 1
    data := bus.regs regAddr
    bus := { bus with log := bus.log ++ [BusOp.read devAddr regAddr] } }

/-- Modelled from the spec: `I2Cdev::writeByte(devAddr, regAddr, data)` (§6, not
among the driver's sources) stores the byte `data` in the register. -/
def writeByte (bus : Bus) (devAddr regAddr data : Nat) : Bus :=
  { regs := fun r => if r = regAddr then data % 256 else bus.regs r
    log := bus.log ++ [BusOp.write devAddr regAddr (data % 256)] }

/-- Modelled from the spec: `I2Cdev::readBit(devAddr, regAddr, bitNum, data)`
(§6, not among the driver's sources) reads the register byte `b` and stores the
selected bit through `data`. The library leaves the bit in place,
`*data = b & (1 << bitNum)`, so a set bit reads as `1 << bitNum`. -/
def readBit (bus : Bus) (devAddr regAddr bitNum : Nat) : ReadResult :=
  let r := readByte bus devAddr regAddr
  { r with data := (r.data &&& (1 <<< bitNum)) % 256 }

/-- Modelled from the spec: `I2Cdev::readBits(devAddr, regAddr, bitStart,
length, data)` (§6, not among the driver's sources) stores the `length`-bit
field whose top bit is `bitStart`, shifted down to bit 0. The shift
`bitStart - length + 1` is computed in `int`; it is written
`bitStart + 1 - length` here so that natural subtraction does not truncate. -/
def readBits (bus : Bus) (devAddr regAddr bitStart length : Nat) : ReadResult :=
  let r := readByte bus devAddr regAddr
  let mask := (((1 <<< length) - 1) <<< (bitStart + 1 - length)) % 256
  { r with data := (r.data &&& mask) >>> (bitStart + 1 - length) }

/-- Modelled from the spec: `I2Cdev::writeBit(devAddr, regAddr, bitNum, data)`
(§6, not among the driver's sources) is a read-modify-write: it reads the
register, sets the bit when `data != 0` and clears it otherwise, and writes the
byte back. -/
def writeBit (bus : Bus) (devAddr regAddr bitNum data : Nat) : Bus :=
  let r := readByte bus devAddr regAddr
  let b := if data ≠ 0 then (r.data ||| (1 <<< bitNum)) % 256
           else andNot r.data (1 <<< bitNum)
  writeByte r.bus devAddr regAddr b

/-- Modelled from the spec: `I2Cdev::writeBits(devAddr, regAddr, bitStart,
length, data)` (§6, not among the driver's sources) is a read-modify-write of
the `length`-bit field whose top bit is `bitStart`, performed when the read
completed. -/
def writeBits (bus : Bus) (devAddr regAddr bitStart length data : Nat) : Bus :=
  let r := readByte bus devAddr regAddr
  if r.count ≠ 0 then
    let mask := (((1 <<< length) - 1) <<< (bitStart + 1 - length)) % 256
    let data1 := (data <<< (bitStart + 1 - length)) % 256
    let data2 := data1 &&& mask
    let b1 := andNot r.data mask
    writeByte r.bus devAddr regAddr (b1 ||| data2)
  else r.bus

end I2Cdev

/-! ## The driver (`AB0805.cpp`) -/

/-- The `AB0805` object (its private members `devAddr`, `buffer[1]`, `mode12`)
together with the bus it talks to. -/
structure AB0805 where
  devAddr : Nat
  buffer : Nat
  mode12 : Bool
  bus : Bus

namespace AB0805

/-- The effect of passing the member `buffer` as the `data` pointer of a read
primitive: `buffer[0]` receives the value and the bus moves on. The return code
of the call is in `r.count`. -/
def recv (self : AB0805) (r : I2Cdev.ReadResult) : AB0805 :=
  { self with buffer := r.data, bus := r.bus }

/-- The effect of a write primitive on the handle: only the bus changes. -/
def send (self : AB0805) (bus : Bus) : AB0805 :=
  { self with bus := bus }

/-- Method `AB0805::initialize` (named `init`: the source's name is a reserved word). -/
def init (self : AB0805) : AB0805 :=
  let stopClk := 0x91
  let allowOscEdit := 0xA1
  let xtOscSel := 0x08
  let self := self.send (I2Cdev.writeByte self.bus self.devAddr AB0805_RA_CONTROL1 stopClk)
  let self := self.send (I2Cdev.writeByte self.bus self.devAddr AB0805_RA_CONFIG_KEY allowOscEdit)
  self.send (I2Cdev.writeByte self.bus self.devAddr AB0805_RA_OSC_CONTROL xtOscSel)

/-- Method `AB0805::testConnection`: the value compared with `0x08` is the value of the
call `I2Cdev::readByte(devAddr, AB0805_RA_ID0, buffer)`, its return code. -/
def testConnection (self : AB0805) : Bool × AB0805 :=
  let r := I2Cdev.readByte self.bus self.devAddr AB0805_RA_ID0
  let self := self.recv r
  if r.count = 0x08 then (true, self) else (false, self)

/-- Method `AB0805::startClock` -/
def startClock (self : AB0805) : AB0805 :=
  self.send (I2Cdev.writeBit self.bus self.devAddr AB0805_RA_CONTROL1 AB0805_CONTROL1_STOP_BIT 0)

/-- Method `AB0805::stopClock` -/
def stopClock (self : AB0805) : AB0805 :=
  self.send (I2Cdev.writeBit self.bus self.devAddr AB0805_RA_CONTROL1 AB0805_CONTROL1_STOP_BIT 1)

/-- Method `AB0805::useRcOsc` -/
def useRcOsc (self : AB0805) : AB0805 :=
  let allowOscEdit := 0xA1
  let self := self.send (I2Cdev.writeByte self.bus self.devAddr AB0805_RA_CONFIG_KEY allowOscEdit)
  self.send (I2Cdev.writeBit self.bus self.devAddr AB0805_RA_OSC_CONTROL AB0805_OSC_CONTROL_OSC_SEL 1)

/-- Method `AB0805::getHundredths` (returns `uint16_t`) -/
def getHundredths (self : AB0805) : Nat × AB0805 :=
  let self := self.recv (I2Cdev.readByte self.bus self.devAddr AB0805_RA_HUNDREDTHS)
  (((self.buffer &&& 0x0F) + ((self.buffer &&& 0xF0) >>> 4) * 10) % 65536, self)

/-- Method `AB0805::setHundredths` (argument `uint16_t`) -/
def setHundredths (self : AB0805) (hundredths : Nat) : AB0805 :=
  if hundredths > 99 then self
  else
    let value := (((hundredths / 10) <<< 4) + hundredths % 10) % 256
    self.send (I2Cdev.writeByte self.bus self.devAddr AB0805_RA_HUNDREDTHS value)

/-- Method `AB0805::getSeconds` -/
def getSeconds (self : AB0805) : Nat × AB0805 :=
  let self := self.recv (I2Cdev.readByte self.bus self.devAddr AB0805_RA_SECONDS)
  (((self.buffer &&& 0x0F) + ((self.buffer &&& 0x70) >>> 4) * 10) % 256, self)

/-- Method `AB0805::setSeconds` -/
def setSeconds (self : AB0805) (seconds : Nat) : AB0805 :=
  if seconds > 59 then self
  else
    let value := (0x00 + ((seconds / 10) <<< 4) + seconds % 10) % 256
    self.send (I2Cdev.writeByte self.bus self.devAddr AB0805_RA_SECONDS value)

/-- Method `AB0805::getMinutes` -/
def getMinutes (self : AB0805) : Nat × AB0805 :=
  let self := self.recv (I2Cdev.readByte self.bus self.devAddr AB0805_RA_MINUTES)
  (((self.buffer &&& 0x0F) + ((self.buffer &&& 0x70) >>> 4) * 10) % 256, self)

/-- Method `AB0805::setMinutes` -/
def setMinutes (self : AB0805) (minutes : Nat) : AB0805 :=
  if minutes > 59 then self
  else
    let value := (((minutes / 10) <<< 4) + minutes % 10) % 256
    self.send (I2Cdev.writeByte self.bus self.devAddr AB0805_RA_MINUTES value)

/-- Method `AB0805::getMode`: the bit is read into the member `buffer`, and
`mode12 = buffer[0]` converts it to `bool` (nonzero is true). -/
def getMode (self : AB0805) : Nat × AB0805 :=
  let self := self.recv
    (I2Cdev.readBit self.bus self.devAddr AB0805_RA_CONTROL1 AB0805_CONTROL1_12OR24_BIT)
  let self := { self with mode12 := decide (self.buffer ≠ 0) }
  (self.buffer, self)

/-- Method `AB0805::setMode` -/
def setMode (self : AB0805) (mode : Nat) : AB0805 :=
  self.send
    (I2Cdev.writeBit self.bus self.devAddr AB0805_RA_CONTROL1 AB0805_CONTROL1_12OR24_BIT mode)

/-- Method `AB0805::getAMPM` -/
def getAMPM (self : AB0805) : Nat × AB0805 :=
  let self := self.recv
    (I2Cdev.readBit self.bus self.devAddr AB0805_RA_HOURS AB0805_HOURS_AMPM_BIT)
  (self.buffer, self)

/-- Method `AB0805::setAMPM` -/
def setAMPM (self : AB0805) (ampm : Nat) : AB0805 :=
  self.send (I2Cdev.writeBit self.bus self.devAddr AB0805_RA_HOURS AB0805_HOURS_AMPM_BIT ampm)

/-- Method `AB0805::getHours12`: `readByte` fills `buffer[0]` with the HOURS byte, then
`mode12 = getMode()` runs `getMode`, whose `readBit` stores into the same
`buffer[0]`; the decoding that follows reads `buffer[0]` as it then is. -/
def getHours12 (self : AB0805) : Nat × AB0805 :=
  let self := self.recv (I2Cdev.readByte self.bus self.devAddr AB0805_RA_HOURS)
  let m := self.getMode
  let self := { m.2 with mode12 := decide (m.1 ≠ 0) }
  if self.mode12 then
    (((self.buffer &&& 0x0F) + ((self.buffer &&& 0x10) >>> 4) * 10) % 256, self)
  else
    let hours := ((self.buffer &&& 0x0F) + ((self.buffer &&& 0x30) >>> 4) * 10) % 256
    let hours := if hours > 12 then (hours - 12) % 256
                 else if hours = 0 then 12 else hours
    (hours, self)

/-- Method `AB0805::setHours12` -/
def setHours12 (self : AB0805) (hours ampm : Nat) : AB0805 :=
  if hours > 12 ∨ hours < 1 then self
  else if self.mode12 then
    let ampm := if ampm > 0 then 0x20 else ampm
    let value := (ampm + ((hours / 10) <<< 4) + hours % 10) % 256
    self.send (I2Cdev.writeByte self.bus self.devAddr AB0805_RA_HOURS value)
  else
    let hours := if ampm > 0 then (hours + 12) % 256 else hours
    let hours := if hours = 0 then 12 else if hours = 24 then 12 else hours
    let value := (((hours / 10) <<< 4) + hours % 10) % 256
    self.send (I2Cdev.writeByte self.bus self.devAddr AB0805_RA_HOURS value)

/-- Method `AB0805::getHours24`: as in `getHours12`, `getMode` stores the mode bit into
`buffer[0]` after the HOURS byte was read into it. -/
def getHours24 (self : AB0805) : Nat × AB0805 :=
  let self := self.recv (I2Cdev.readByte self.bus self.devAddr AB0805_RA_HOURS)
  let m := self.getMode
  let self := { m.2 with mode12 := decide (m.1 ≠ 0) }
  if self.mode12 then
    let hours := ((self.buffer &&& 0x0F) + ((self.buffer &&& 0x10) >>> 4) * 10) % 256
    let hours := if self.buffer &&& 0x20 ≠ 0 then
                   (if hours < 12 then (hours + 12) % 256 else hours)
                 else
                   (if hours = 12 then 0 else hours)
    (hours, self)
  else
    (((self.buffer &&& 0x0F) + ((self.buffer &&& 0x30) >>> 4) * 10) % 256, self)

/-- Method `AB0805::setHours24` -/
def setHours24 (self : AB0805) (hours : Nat) : AB0805 :=
  if hours > 23 then self
  else if self.mode12 then
    let ampm := if hours > 11 then 0x20 else 0
    let hours := if hours > 12 then (hours - 12) % 256
                 else if hours = 0 then 12 else hours
    let value := (ampm + ((hours / 10) <<< 4) + hours % 10) % 256
    self.send (I2Cdev.writeByte self.bus self.devAddr AB0805_RA_HOURS value)
  else
    let value := (((hours / 10) <<< 4) + hours % 10) % 256
    self.send (I2Cdev.writeByte self.bus self.devAddr AB0805_RA_HOURS value)

/-- Method `AB0805::getDayOfWeek` -/
def getDayOfWeek (self : AB0805) : Nat × AB0805 :=
  let self := self.recv
    (I2Cdev.readBits self.bus self.devAddr AB0805_RA_DAY AB0805_DAY_BIT AB0805_DAY_LENGTH)
  (self.buffer, self)

/-- Method `AB0805::setDayOfWeek` -/
def setDayOfWeek (self : AB0805) (dow : Nat) : AB0805 :=
  if dow < 1 ∨ dow > 7 then self
  else
    self.send
      (I2Cdev.writeBits self.bus self.devAddr AB0805_RA_DAY AB0805_DAY_BIT AB0805_DAY_LENGTH dow)

/-- Method `AB0805::getDay` -/
def getDay (self : AB0805) : Nat × AB0805 :=
  let self := self.recv (I2Cdev.readByte self.bus self.devAddr AB0805_RA_DATE)
  (((self.buffer &&& 0x0F) + ((self.buffer &&& 0x30) >>> 4) * 10) % 256, self)

/-- Method `AB0805::setDay` -/
def setDay (self : AB0805) (day : Nat) : AB0805 :=
  let value := (((day / 10) <<< 4) + day % 10) % 256
  self.send (I2Cdev.writeByte self.bus self.devAddr AB0805_RA_DATE value)

/-- Method `AB0805::getMonth` -/
def getMonth (self : AB0805) : Nat × AB0805 :=
  let self := self.recv (I2Cdev.readByte self.bus self.devAddr AB0805_RA_MONTH)
  (((self.buffer &&& 0x0F) + ((self.buffer &&& 0x10) >>> 4) * 10) % 256, self)

/-- Method `AB0805::setMonth` -/
def setMonth (self : AB0805) (month : Nat) : AB0805 :=
  if month < 1 ∨ month > 12 then self
  else
    let value := (((month / 10) <<< 4) + month % 10) % 256
    self.send (I2Cdev.writeByte self.bus self.devAddr AB0805_RA_MONTH value)

/-- Method `AB0805::getYear` (returns `uint16_t`) -/
def getYear (self : AB0805) : Nat × AB0805 :=
  let self := self.recv (I2Cdev.readByte self.bus self.devAddr AB0805_RA_YEAR)
  ((2000 + (self.buffer &&& 0x0F) + ((self.buffer &&& 0xF0) >>> 4) * 10) % 65536, self)

/-- Method `AB0805::setYear` (argument `uint16_t`; `year -= 2000` cannot wrap after
the guard) -/
def setYear (self : AB0805) (year : Nat) : AB0805 :=
  if year < 2000 then self
  else
    let year := (year - 2000) % 65536
    let value := (((year / 10) <<< 4) + year % 10) % 256
    self.send (I2Cdev.writeByte self.bus self.devAddr AB0805_RA_YEAR value)

/-- The three outputs of `getDate`. -/
structure Date where
  year : Nat
  month : Nat
  day : Nat
  deriving DecidableEq

/-- The outputs of `getTime24`, and with `ampm` of `getTime12`. -/
structure Time where
  hours : Nat
  minutes : Nat
  seconds : Nat
  deriving DecidableEq

/-- Method `AB0805::getDate` -/
def getDate (self : AB0805) : Date × AB0805 :=
  let y := self.getYear
  let m := y.2.getMonth
  let d := m.2.getDay
  ({ year := y.1, month := m.1, day := d.1 }, d.2)

/-- Method `AB0805::setDate` -/
def setDate (self : AB0805) (year month day : Nat) : AB0805 :=
  ((self.setYear year).setMonth month).setDay day

/-- Method `AB0805::getTime12`; the fourth output `ampm` is the second component. -/
def getTime12 (self : AB0805) : (Time × Nat) × AB0805 :=
  let h := self.getHours12
  let m := h.2.getMinutes
  let s := m.2.getSeconds
  let a := s.2.getAMPM
  (({ hours := h.1, minutes := m.1, seconds := s.1 }, a.1), a.2)

/-- Method `AB0805::setTime12` -/
def setTime12 (self : AB0805) (hours minutes seconds ampm : Nat) : AB0805 :=
  ((self.setSeconds seconds).setMinutes minutes).setHours12 hours ampm

/-- Method `AB0805::getTime24` -/
def getTime24 (self : AB0805) : Time × AB0805 :=
  let h := self.getHours24
  let m := h.2.getMinutes
  let s := m.2.getSeconds
  ({ hours := h.1, minutes := m.1, seconds := s.1 }, s.2)

/-- Method `AB0805::setTime24` -/
def setTime24 (self : AB0805) (hours minutes seconds : Nat) : AB0805 :=
  ((self.setSeconds seconds).setMinutes minutes).setHours24 hours

/-- Method `AB0805::getDateTime12` -/
def getDateTime12 (self : AB0805) : (Date × Time × Nat) × AB0805 :=
  let t := self.getTime12
  let d := t.2.getDate
  ((d.1, t.1.1, t.1.2), d.2)

/-- Method `AB0805::setDateTime12` -/
def setDateTime12 (self : AB0805) (year month day hours minutes seconds ampm : Nat) : AB0805 :=
  (self.setTime12 hours minutes seconds ampm).setDate year month day

/-- Method `AB0805::getDateTime24` -/
def getDateTime24 (self : AB0805) : (Date × Time) × AB0805 :=
  let t := self.getTime24
  let d := t.2.getDate
  ((d.1, t.1), d.2)

/-- Method `AB0805::setDateTime24` -/
def setDateTime24 (self : AB0805) (year month day hours minutes seconds : Nat) : AB0805 :=
  (self.setTime24 hours minutes seconds).setDate year month day

end AB0805

/-! ## A concrete chip -/

/-- A register file holding `ctrl1` in CONTROL1, `hrs` in HOURS, `id0` in ID0
and zero elsewhere. -/
def chipRegs (ctrl1 hrs id0 : Nat) : Nat → Nat :=
  fun r => if r = AB0805_RA_CONTROL1 then ctrl1
           else if r = AB0805_RA_HOURS then hrs
           else if r = AB0805_RA_ID0 then id0 else 0

/-- A handle at the default address on a chip with the given CONTROL1, HOURS
and ID0 bytes, cached mode flag `m`, and an empty transaction log. -/
def chip (m : Bool) (ctrl1 hrs id0 : Nat) : AB0805 :=
  { devAddr := AB0805_DEFAULT_ADDRESS, buffer := 0, mode12 := m,
    bus := { regs := chipRegs ctrl1 hrs id0, log := [] } }

/-! ## Vocabulary of the claims -/

/-- The packing every setter applies to the value it stores: tens digit in the
high nibble, units digit in the low nibble, `((v / 10) << 4) + (v % 10)`, as a
byte. -/
def bcdByte (v : Nat) : Nat := (((v / 10) <<< 4) + v % 10) % 256

/-- A byte is two-digit BCD when its low nibble and its high nibble are both
in 0..9. -/
def isBCD (v : Nat) : Prop := v % 16 ≤ 9 ∧ v / 16 ≤ 9

/-- The outcome of a setter call that either did nothing at all or issued
exactly one bus transaction, a write to register `reg` of a two-digit BCD
byte. -/
def wroteNothingOrBCD (reg : Nat) (before after : AB0805) : Prop :=
  after = before ∨
  ∃ v, after.bus.log = before.bus.log ++ [BusOp.write before.devAddr reg v] ∧ isBCD v

/-- The 12-hour value of a 24-hour hour: 12 for 0 and 12, `h` for 1..11,
`h - 12` for 13..23. -/
def hour12Of (h : Nat) : Nat :=
  if h = 0 ∨ h = 12 then 12 else if h < 12 then h else h - 12

/-- The 24-hour value of a 12-hour hour with its AM/PM indication (`ampm`
nonzero for PM): 0 for 12 AM, 12 for 12 PM, `h` for the other AM hours and
`h + 12` for the other PM hours. -/
def hour24Of (h ampm : Nat) : Nat :=
  if h = 12 then (if ampm = 0 then 0 else 12) else (if ampm = 0 then h else h + 12)

/-- The register a bus transaction addresses. -/
def BusOp.reg : BusOp → Nat
  | BusOp.read _ r => r
  | BusOp.write _ r _ => r

/-- A call that touched at most register `reg`: every other register holds
what it held, the members of the handle (`devAddr`, `buffer`, the cached flag
`mode12`) are as they were, and every transaction the call put on the bus
addresses `reg`. -/
def touchesOnly (reg : Nat) (before after : AB0805) : Prop :=
  (∀ r, r ≠ reg → after.bus.regs r = before.bus.regs r) ∧
  after.mode12 = before.mode12 ∧ after.devAddr = before.devAddr ∧
  after.buffer = before.buffer ∧
  ∃ ops, after.bus.log = before.bus.log ++ ops ∧ ∀ op ∈ ops, op.reg = reg

/-! ## Supporting lemmas -/

/-- The value `readBit` stores for bit 6 of a byte: 64 when the bit is set, 0
when it is clear. -/
theorem and_64_eq (b : Nat) : b &&& 64 = if b.testBit 6 then 64 else 0 := by
  have h : b &&& 64 = (b.testBit 6).toNat * 64 := Nat.and_two_pow b 6
  rw [h]
  cases b.testBit 6 <;> simp

/-- The return code of a completed `readByte` is 1 whatever the register holds,
so `testConnection` reports failure on every register store. -/
theorem testConnection_eq_false (self : AB0805) : self.testConnection.1 = false := by
  simp [AB0805.testConnection, I2Cdev.readByte]

/-- After `getMode` the buffer holds the mode bit in place, not the HOURS byte:
`getMode` stores 64 or 0 into `buffer[0]`. -/
theorem getMode_buffer (self : AB0805) :
    self.getMode.2.buffer =
      if (self.bus.regs AB0805_RA_CONTROL1).testBit AB0805_CONTROL1_12OR24_BIT then 64 else 0 := by
  have h := and_64_eq (self.bus.regs AB0805_RA_CONTROL1)
  simp only [AB0805.getMode, AB0805.recv, I2Cdev.readBit, I2Cdev.readByte,
    AB0805_CONTROL1_12OR24_BIT, Nat.reduceShiftLeft, h]
  split <;> rfl

/-- On a chip in 24-hour mode `getHours24` returns 0 whatever the HOURS register
holds: it decodes the mode bit that `getMode` left in the buffer. -/
theorem getHours24_of_mode24 (self : AB0805)
    (h : (self.bus.regs AB0805_RA_CONTROL1).testBit AB0805_CONTROL1_12OR24_BIT = false) :
    self.getHours24.1 = 0 := by
  have h64 := and_64_eq (self.bus.regs AB0805_RA_CONTROL1)
  simp only [AB0805_CONTROL1_12OR24_BIT] at h
  simp [AB0805.getHours24, AB0805.getMode, AB0805.recv, I2Cdev.readBit, I2Cdev.readByte,
    AB0805_CONTROL1_12OR24_BIT, h64, h]

/-- On a chip in 24-hour mode `getHours12` returns 12 whatever the HOURS register
holds. -/
theorem getHours12_of_mode24 (self : AB0805)
    (h : (self.bus.regs AB0805_RA_CONTROL1).testBit AB0805_CONTROL1_12OR24_BIT = false) :
    self.getHours12.1 = 12 := by
  have h64 := and_64_eq (self.bus.regs AB0805_RA_CONTROL1)
  simp only [AB0805_CONTROL1_12OR24_BIT] at h
  simp [AB0805.getHours12, AB0805.getMode, AB0805.recv, I2Cdev.readBit, I2Cdev.readByte,
    AB0805_CONTROL1_12OR24_BIT, h64, h]

/-- On a chip in 12-hour mode `getHours12` returns 0 whatever the HOURS register
holds. -/
theorem getHours12_of_mode12 (self : AB0805)
    (h : (self.bus.regs AB0805_RA_CONTROL1).testBit AB0805_CONTROL1_12OR24_BIT = true) :
    self.getHours12.1 = 0 := by
  have h64 := and_64_eq (self.bus.regs AB0805_RA_CONTROL1)
  simp only [AB0805_CONTROL1_12OR24_BIT] at h
  simp [AB0805.getHours12, AB0805.getMode, AB0805.recv, I2Cdev.readBit, I2Cdev.readByte,
    AB0805_CONTROL1_12OR24_BIT, h64, h]
  decide

/-- On a chip in 12-hour mode `getHours24` returns 0 whatever the HOURS register
holds. -/
theorem getHours24_of_mode12 (self : AB0805)
    (h : (self.bus.regs AB0805_RA_CONTROL1).testBit AB0805_CONTROL1_12OR24_BIT = true) :
    self.getHours24.1 = 0 := by
  have h64 := and_64_eq (self.bus.regs AB0805_RA_CONTROL1)
  simp only [AB0805_CONTROL1_12OR24_BIT] at h
  simp [AB0805.getHours24, AB0805.getMode, AB0805.recv, I2Cdev.readBit, I2Cdev.readByte,
    AB0805_CONTROL1_12OR24_BIT, h64, h]
  decide

/-- Packing a value below 100 as two BCD digits and unpacking it with the full
high-nibble mask gives the value back. -/
theorem bcd_F0 : ∀ x, x < 100 →
    ((((x / 10) <<< 4) + x % 10) % 256 &&& 0x0F)
      + (((((x / 10) <<< 4) + x % 10) % 256 &&& 0xF0) >>> 4) * 10 = x := by
  decide

/-- Unpacking with the three-bit tens mask `0x70` is exact below 80. -/
theorem bcd_70 : ∀ x, x < 80 →
    ((((x / 10) <<< 4) + x % 10) % 256 &&& 0x0F)
      + (((((x / 10) <<< 4) + x % 10) % 256 &&& 0x70) >>> 4) * 10 = x := by
  decide

/-- Unpacking with the two-bit tens mask `0x30` is exact below 40. -/
theorem bcd_30 : ∀ x, x < 40 →
    ((((x / 10) <<< 4) + x % 10) % 256 &&& 0x0F)
      + (((((x / 10) <<< 4) + x % 10) % 256 &&& 0x30) >>> 4) * 10 = x := by
  decide

/-- Unpacking with the one-bit tens mask `0x10` is exact below 20. -/
theorem bcd_10 : ∀ x, x < 20 →
    ((((x / 10) <<< 4) + x % 10) % 256 &&& 0x0F)
      + (((((x / 10) <<< 4) + x % 10) % 256 &&& 0x10) >>> 4) * 10 = x := by
  decide

/-- The packed form of a value below 100 has both nibbles in 0..9. -/
theorem bcd_nibbles : ∀ x, x < 100 →
    (((x / 10) <<< 4) + x % 10) % 256 % 16 ≤ 9 ∧ (((x / 10) <<< 4) + x % 10) % 256 / 16 ≤ 9 := by
  decide

/-! ## Claims -/

/-- C1 (the code departs from the claim): on a register store whose ID0 register
(0x28) holds 8, `testConnection()` returns false. The comparison with `0x08` is
made on the return code of `readByte` (1), not on the byte it stored in the
buffer (which is 8 here). -/
theorem C1_testConnection_id8_reports_failure :
    (chip false 0x00 0x00 8).bus.regs AB0805_RA_ID0 = 8 ∧
    (chip false 0x00 0x00 8).testConnection.2.buffer = 8 ∧
    (chip false 0x00 0x00 8).testConnection.1 = false := by
  decide

/-- C2 (the code departs from the claim): on a chip in 24-hour mode with the
cached flag agreeing, `setHours24(13)` writes 0x13 to HOURS, yet the following
`getHours24()` returns 0, not 13. -/
theorem C2_setHours24_getHours24_returns_zero :
    (chip false 0x00 0x00 8).mode12 = false ∧
    ((chip false 0x00 0x00 8).bus.regs AB0805_RA_CONTROL1).testBit 6 = false ∧
    ((chip false 0x00 0x00 8).setHours24 13).bus.regs AB0805_RA_HOURS = 0x13 ∧
    ((chip false 0x00 0x00 8).setHours24 13).getHours24.1 = 0 := by
  decide

/-- C3 (the code departs from the claim): on a chip in 12-hour mode with the
cached flag agreeing, `setHours12(5, 1)` writes 0x25 to HOURS, yet the following
`getHours12()` returns 0, not 5; the `getAMPM()` after it returns 0x20, not 1. -/
theorem C3_setHours12_getHours12_returns_zero :
    (chip true 0x40 0x00 8).mode12 = true ∧
    ((chip true 0x40 0x00 8).bus.regs AB0805_RA_CONTROL1).testBit 6 = true ∧
    ((chip true 0x40 0x00 8).setHours12 5 1).bus.regs AB0805_RA_HOURS = 0x25 ∧
    ((chip true 0x40 0x00 8).setHours12 5 1).getHours12.1 = 0 ∧
    ((chip true 0x40 0x00 8).setHours12 5 1).getHours12.2.getAMPM.1 = 0x20 := by
  decide

/-- C4 (the code departs from the claim): on a chip in 24-hour mode whose HOURS
register holds 0x13, the 24-hour BCD encoding of 13, `getHours12()` returns 12,
not 1. -/
theorem C4_getHours12_of_hour13_returns_12 :
    ((chip false 0x00 0x13 8).bus.regs AB0805_RA_CONTROL1).testBit 6 = false ∧
    (chip false 0x00 0x13 8).bus.regs AB0805_RA_HOURS = ((13 / 10) <<< 4) + 13 % 10 ∧
    (chip false 0x00 0x13 8).getHours12.1 = 12 := by
  decide

/-- C5 (the code departs from the claim): on a chip in 12-hour mode whose HOURS
register holds 0x25, the 12-hour encoding of 5 PM, `getHours24()` returns 0,
not 17. -/
theorem C5_getHours24_of_5pm_returns_zero :
    ((chip true 0x40 0x25 8).bus.regs AB0805_RA_CONTROL1).testBit 6 = true ∧
    (chip true 0x40 0x25 8).bus.regs AB0805_RA_HOURS = 0x20 + ((5 / 10) <<< 4) + 5 % 10 ∧
    (chip true 0x40 0x25 8).getHours24.1 = 0 := by
  decide

/-- C6 (the code departs from the claim): on a chip in 24-hour mode with the
cached flag agreeing, `setDateTime24(2024, 6, 15, 13, 45, 30)` followed by
`getDateTime24` yields 2024, 6, 15, 0, 45, 30: the hour comes back as 0, not
13, although HOURS holds 0x13. -/
theorem C6_setDateTime24_getDateTime24_loses_hour :
    (chip false 0x00 0x00 8).mode12 = false ∧
    ((chip false 0x00 0x00 8).bus.regs AB0805_RA_CONTROL1).testBit 6 = false ∧
    ((chip false 0x00 0x00 8).setDateTime24 2024 6 15 13 45 30).bus.regs AB0805_RA_HOURS = 0x13 ∧
    ((chip false 0x00 0x00 8).setDateTime24 2024 6 15 13 45 30).getDateTime24.1 =
      ({ year := 2024, month := 6, day := 15 }, { hours := 0, minutes := 45, seconds := 30 }) := by
  decide

/-- C7: set-then-get is the identity on every in-range BCD field: seconds and
minutes in 0..59, hundredths in 0..99, day in 1..31, month in 1..12, from every
prior state of the handle and the register store. -/
theorem C7_set_get_roundtrip (self : AB0805) (x : Nat) :
    (x ≤ 59 → (self.setSeconds x).getSeconds.1 = x) ∧
    (x ≤ 59 → (self.setMinutes x).getMinutes.1 = x) ∧
    (x ≤ 99 → (self.setHundredths x).getHundredths.1 = x) ∧
    (1 ≤ x ∧ x ≤ 31 → (self.setDay x).getDay.1 = x) ∧
    (1 ≤ x ∧ x ≤ 12 → (self.setMonth x).getMonth.1 = x) := by
  refine ⟨?_, ?_, ?_, ?_, ?_⟩
  · intro h
    have e := bcd_70 x (by omega)
    have hx : ¬ x > 59 := by omega
    rw [AB0805.setSeconds, if_neg hx]
    simp [AB0805.getSeconds, AB0805.recv, AB0805.send, I2Cdev.readByte, I2Cdev.writeByte, e]
    omega
  · intro h
    have e := bcd_70 x (by omega)
    have hx : ¬ x > 59 := by omega
    rw [AB0805.setMinutes, if_neg hx]
    simp [AB0805.getMinutes, AB0805.recv, AB0805.send, I2Cdev.readByte, I2Cdev.writeByte, e]
    omega
  · intro h
    have e := bcd_F0 x (by omega)
    have hx : ¬ x > 99 := by omega
    rw [AB0805.setHundredths, if_neg hx]
    simp [AB0805.getHundredths, AB0805.recv, AB0805.send, I2Cdev.readByte, I2Cdev.writeByte, e]
    omega
  · intro h
    have e := bcd_30 x (by omega)
    simp [AB0805.setDay, AB0805.getDay, AB0805.recv, AB0805.send, I2Cdev.readByte,
      I2Cdev.writeByte, e]
    omega
  · intro h
    have e := bcd_10 x (by omega)
    have hx : ¬ (x < 1 ∨ x > 12) := by omega
    rw [AB0805.setMonth, if_neg hx]
    simp [AB0805.getMonth, AB0805.recv, AB0805.send, I2Cdev.readByte, I2Cdev.writeByte, e]
    omega

/-- C7 at concrete inputs: seconds 59, minutes 45, hundredths 99, day 31 and
month 12 all come back from a chip whose registers started at zero. -/
theorem C7_set_get_roundtrip_witness :
    ((chip false 0x00 0x00 8).setSeconds 59).getSeconds.1 = 59 ∧
    ((chip false 0x00 0x00 8).setMinutes 45).getMinutes.1 = 45 ∧
    ((chip false 0x00 0x00 8).setHundredths 99).getHundredths.1 = 99 ∧
    ((chip false 0x00 0x00 8).setDay 31).getDay.1 = 31 ∧
    ((chip false 0x00 0x00 8).setMonth 12).getMonth.1 = 12 :=
  ⟨(C7_set_get_roundtrip (chip false 0x00 0x00 8) 59).1 (by decide),
   (C7_set_get_roundtrip (chip false 0x00 0x00 8) 45).2.1 (by decide),
   (C7_set_get_roundtrip (chip false 0x00 0x00 8) 99).2.2.1 (by decide),
   (C7_set_get_roundtrip (chip false 0x00 0x00 8) 31).2.2.2.1 (by decide),
   (C7_set_get_roundtrip (chip false 0x00 0x00 8) 12).2.2.2.2 (by decide)⟩

/-- C8: every range-checked setter called with an out-of-range argument returns
the handle and the bus exactly as they were: the register store is unchanged and
the transaction log gains no entry (no bus write, and no bus read either). This
holds for either value of the cached mode flag and for every `ampm`. -/
theorem C8_out_of_range_setters_are_noops (self : AB0805) (x ampm : Nat) :
    (x > 59 → self.setSeconds x = self) ∧
    (x > 59 → self.setMinutes x = self) ∧
    (x > 99 → self.setHundredths x = self) ∧
    (x = 0 ∨ x > 12 → self.setMonth x = self) ∧
    (x = 0 ∨ x > 7 → self.setDayOfWeek x = self) ∧
    (x < 2000 → self.setYear x = self) ∧
    (x > 23 → self.setHours24 x = self) ∧
    (x = 0 ∨ x > 12 → self.setHours12 x ampm = self) := by
  refine ⟨?_, ?_, ?_, ?_, ?_, ?_, ?_, ?_⟩
  · intro h
    rw [AB0805.setSeconds, if_pos h]
  · intro h
    rw [AB0805.setMinutes, if_pos h]
  · intro h
    rw [AB0805.setHundredths, if_pos h]
  · intro h
    have hx : x < 1 ∨ x > 12 := by omega
    rw [AB0805.setMonth, if_pos hx]
  · intro h
    have hx : x < 1 ∨ x > 7 := by omega
    rw [AB0805.setDayOfWeek, if_pos hx]
  · intro h
    rw [AB0805.setYear, if_pos h]
  · intro h
    rw [AB0805.setHours24, if_pos h]
  · intro h
    have hx : x > 12 ∨ x < 1 := by omega
    rw [AB0805.setHours12, if_pos hx]

/-- C8 at the inputs the specification lists: `setSeconds(60)`,
`setMinutes(60)`, `setHundredths(100)`, `setMonth(13)`, `setDayOfWeek(8)`,
`setYear(1999)`, `setHours24(24)` and `setHours12(13, 1)` leave a 12-hour chip as
it was. -/
theorem C8_out_of_range_setters_are_noops_witness :
    (chip true 0x40 0x25 8).setSeconds 60 = chip true 0x40 0x25 8 ∧
    (chip true 0x40 0x25 8).setMinutes 60 = chip true 0x40 0x25 8 ∧
    (chip true 0x40 0x25 8).setHundredths 100 = chip true 0x40 0x25 8 ∧
    (chip true 0x40 0x25 8).setMonth 13 = chip true 0x40 0x25 8 ∧
    (chip true 0x40 0x25 8).setDayOfWeek 8 = chip true 0x40 0x25 8 ∧
    (chip true 0x40 0x25 8).setYear 1999 = chip true 0x40 0x25 8 ∧
    (chip true 0x40 0x25 8).setHours24 24 = chip true 0x40 0x25 8 ∧
    (chip true 0x40 0x25 8).setHours12 13 1 = chip true 0x40 0x25 8 :=
  ⟨(C8_out_of_range_setters_are_noops (chip true 0x40 0x25 8) 60 0).1 (by decide),
   (C8_out_of_range_setters_are_noops (chip true 0x40 0x25 8) 60 0).2.1 (by decide),
   (C8_out_of_range_setters_are_noops (chip true 0x40 0x25 8) 100 0).2.2.1 (by decide),
   (C8_out_of_range_setters_are_noops (chip true 0x40 0x25 8) 13 0).2.2.2.1 (by decide),
   (C8_out_of_range_setters_are_noops (chip true 0x40 0x25 8) 8 0).2.2.2.2.1 (by decide),
   (C8_out_of_range_setters_are_noops (chip true 0x40 0x25 8) 1999 0).2.2.2.2.2.1 (by decide),
   (C8_out_of_range_setters_are_noops (chip true 0x40 0x25 8) 24 0).2.2.2.2.2.2.1 (by decide),
   (C8_out_of_range_setters_are_noops (chip true 0x40 0x25 8) 13 1).2.2.2.2.2.2.2 (by decide)⟩

/-- C9: for every year in 2000..2099, `setYear(year)` followed by `getYear()`
returns `year`, from every prior state. -/
theorem C9_setYear_getYear (self : AB0805) (year : Nat) (hlo : 2000 ≤ year) (hhi : year ≤ 2099) :
    (self.setYear year).getYear.1 = year := by
  have e := bcd_F0 (year - 2000) (by omega)
  have hx : ¬ year < 2000 := by omega
  have hm : (year - 2000) % 65536 = year - 2000 := Nat.mod_eq_of_lt (by omega)
  rw [AB0805.setYear, if_neg hx]
  simp only [hm]
  simp [AB0805.getYear, AB0805.recv, AB0805.send, I2Cdev.readByte, I2Cdev.writeByte]
  omega

/-- C9 at the specification's example: `setYear(2024)` then `getYear()` returns
2024. -/
theorem C9_setYear_getYear_witness :
    2000 ≤ 2024 ∧ 2024 ≤ 2099 ∧ ((chip false 0x00 0x00 8).setYear 2024).getYear.1 = 2024 :=
  ⟨by decide, by decide, C9_setYear_getYear (chip false 0x00 0x00 8) 2024 (by decide) (by decide)⟩

/-- C10 as stated fails: `setYear(2100)` is accepted (2100 ≥ 2000) and writes the
byte 0xA0 to the YEAR register, whose high nibble is 10. -/
theorem C10_setYear_2100_not_bcd :
    ((chip false 0x00 0x00 8).setYear 2100).bus.log
      = [BusOp.write AB0805_DEFAULT_ADDRESS AB0805_RA_YEAR 0xA0] ∧
    ((chip false 0x00 0x00 8).setYear 2100).bus.regs AB0805_RA_YEAR = 0xA0 ∧
    ¬ (((chip false 0x00 0x00 8).setYear 2100).bus.regs AB0805_RA_YEAR / 16 ≤ 9) := by
  decide

/-- C10, amended: for every year in 2000..2099, `setYear` issues exactly one bus
transaction, a write to the YEAR register of a byte whose low nibble and high
nibble are each in 0..9, and that byte is what the register then holds. -/
theorem C10_setYear_writes_bcd (self : AB0805) (year : Nat) (hlo : 2000 ≤ year)
    (hhi : year ≤ 2099) :
    ∃ v, (self.setYear year).bus.log = self.bus.log ++ [BusOp.write self.devAddr AB0805_RA_YEAR v] ∧
      (self.setYear year).bus.regs AB0805_RA_YEAR = v ∧ v % 16 ≤ 9 ∧ v / 16 ≤ 9 := by
  have e := bcd_nibbles (year - 2000) (by omega)
  have hx : ¬ year < 2000 := by omega
  have hm : (year - 2000) % 65536 = year - 2000 := Nat.mod_eq_of_lt (by omega)
  rw [AB0805.setYear, if_neg hx]
  simp only [hm]
  refine ⟨(((year - 2000) / 10) <<< 4 + (year - 2000) % 10) % 256, ?_, ?_, e.1, e.2⟩
  · simp [AB0805.send, I2Cdev.writeByte]
  · simp [AB0805.send, I2Cdev.writeByte]

/-- C10, amended, at year 2024: the byte written is 0x24. -/
theorem C10_setYear_writes_bcd_witness :
    ∃ v, ((chip false 0x00 0x00 8).setYear 2024).bus.log
        = (chip false 0x00 0x00 8).bus.log
          ++ [BusOp.write (chip false 0x00 0x00 8).devAddr AB0805_RA_YEAR v] ∧
      ((chip false 0x00 0x00 8).setYear 2024).bus.regs AB0805_RA_YEAR = v ∧ v % 16 ≤ 9 ∧ v / 16 ≤ 9 :=
  C10_setYear_writes_bcd (chip false 0x00 0x00 8) 2024 (by decide) (by decide)

/-- C11: `setHours12` and `setHours24` pick the hour encoding from the cached
mode flag alone. For two handles with the same cached flag, whatever their
register stores hold (the 12/24 bit of CONTROL1 included), the same in-range
arguments make each issue exactly one bus transaction, a write of one and the
same byte `v` to HOURS; no read is issued. -/
theorem C11_hour_setters_use_cached_flag_only (s1 s2 : AB0805) (hours ampm : Nat)
    (hm : s1.mode12 = s2.mode12) :
    (1 ≤ hours ∧ hours ≤ 12 → ∃ v,
      (s1.setHours12 hours ampm).bus.log
        = s1.bus.log ++ [BusOp.write s1.devAddr AB0805_RA_HOURS v] ∧
      (s2.setHours12 hours ampm).bus.log
        = s2.bus.log ++ [BusOp.write s2.devAddr AB0805_RA_HOURS v] ∧
      (s1.setHours12 hours ampm).bus.regs AB0805_RA_HOURS = v ∧
      (s2.setHours12 hours ampm).bus.regs AB0805_RA_HOURS = v) ∧
    (hours ≤ 23 → ∃ v,
      (s1.setHours24 hours).bus.log
        = s1.bus.log ++ [BusOp.write s1.devAddr AB0805_RA_HOURS v] ∧
      (s2.setHours24 hours).bus.log
        = s2.bus.log ++ [BusOp.write s2.devAddr AB0805_RA_HOURS v] ∧
      (s1.setHours24 hours).bus.regs AB0805_RA_HOURS = v ∧
      (s2.setHours24 hours).bus.regs AB0805_RA_HOURS = v) := by
  constructor
  · intro h
    have hx : ¬ (hours > 12 ∨ hours < 1) := by omega
    simp only [AB0805.setHours12, if_neg hx, hm]
    cases s2.mode12
    · exact ⟨_, rfl, rfl, rfl, rfl⟩
    · exact ⟨_, rfl, rfl, rfl, rfl⟩
  · intro h
    have hx : ¬ hours > 23 := by omega
    simp only [AB0805.setHours24, if_neg hx, hm]
    cases s2.mode12
    · exact ⟨_, rfl, rfl, rfl, rfl⟩
    · exact ⟨_, rfl, rfl, rfl, rfl⟩

/-- C11 at concrete inputs: with the cached flag saying 12-hour mode on both, a
chip whose CONTROL1 says 24-hour mode and a chip whose CONTROL1 says 12-hour mode
both get 0x25 for `setHours12(5, 1)` and 0x25 for `setHours24(17)`. -/
theorem C11_hour_setters_use_cached_flag_only_witness :
    (∃ v,
      ((chip true 0x00 0x00 8).setHours12 5 1).bus.log
        = (chip true 0x00 0x00 8).bus.log
          ++ [BusOp.write (chip true 0x00 0x00 8).devAddr AB0805_RA_HOURS v] ∧
      ((chip true 0x40 0x11 8).setHours12 5 1).bus.log
        = (chip true 0x40 0x11 8).bus.log
          ++ [BusOp.write (chip true 0x40 0x11 8).devAddr AB0805_RA_HOURS v] ∧
      ((chip true 0x00 0x00 8).setHours12 5 1).bus.regs AB0805_RA_HOURS = v ∧
      ((chip true 0x40 0x11 8).setHours12 5 1).bus.regs AB0805_RA_HOURS = v) ∧
    (∃ v,
      ((chip true 0x00 0x00 8).setHours24 17).bus.log
        = (chip true 0x00 0x00 8).bus.log
          ++ [BusOp.write (chip true 0x00 0x00 8).devAddr AB0805_RA_HOURS v] ∧
      ((chip true 0x40 0x11 8).setHours24 17).bus.log
        = (chip true 0x40 0x11 8).bus.log
          ++ [BusOp.write (chip true 0x40 0x11 8).devAddr AB0805_RA_HOURS v] ∧
      ((chip true 0x00 0x00 8).setHours24 17).bus.regs AB0805_RA_HOURS = v ∧
      ((chip true 0x40 0x11 8).setHours24 17).bus.regs AB0805_RA_HOURS = v) :=
  ⟨(C11_hour_setters_use_cached_flag_only (chip true 0x00 0x00 8) (chip true 0x40 0x11 8)
      5 1 rfl).1 (by decide),
   (C11_hour_setters_use_cached_flag_only (chip true 0x00 0x00 8) (chip true 0x40 0x11 8)
      17 1 rfl).2 (by decide)⟩

/-- C12: `initialize()` issues exactly three bus transactions, all writes, in
this order: 0x91 to CONTROL1 (0x10), 0xA1 to CONFIG_KEY (0x1F), 0x08 to
OSC_CONTROL (0x1C). Afterwards bit 7 of CONTROL1 is set, bit 7 of OSC_CONTROL is
clear, every other register holds what it held, and the members of the handle
are untouched. -/
theorem C12_initialize_three_writes (self : AB0805) :
    self.init.bus.log = self.bus.log ++
      [BusOp.write self.devAddr AB0805_RA_CONTROL1 0x91,
       BusOp.write self.devAddr AB0805_RA_CONFIG_KEY 0xA1,
       BusOp.write self.devAddr AB0805_RA_OSC_CONTROL 0x08] ∧
    (self.init.bus.regs AB0805_RA_CONTROL1).testBit AB0805_CONTROL1_STOP_BIT = true ∧
    (self.init.bus.regs AB0805_RA_OSC_CONTROL).testBit AB0805_OSC_CONTROL_OSC_SEL = false ∧
    (∀ r, self.init.bus.regs r =
      if r = AB0805_RA_CONTROL1 then 0x91
      else if r = AB0805_RA_CONFIG_KEY then 0xA1
      else if r = AB0805_RA_OSC_CONTROL then 0x08
      else self.bus.regs r) ∧
    self.init.devAddr = self.devAddr ∧ self.init.buffer = self.buffer ∧
    self.init.mode12 = self.mode12 := by
  refine ⟨?_, ?_, ?_, ?_, rfl, rfl, rfl⟩
  · simp [AB0805.init, AB0805.send, I2Cdev.writeByte]
  · simp [AB0805.init, AB0805.send, I2Cdev.writeByte]
    decide
  · simp [AB0805.init, AB0805.send, I2Cdev.writeByte]
    decide
  · intro r
    simp only [AB0805.init, AB0805.send, I2Cdev.writeByte]
    by_cases h1 : r = AB0805_RA_OSC_CONTROL
    · subst h1; simp
    · by_cases h2 : r = AB0805_RA_CONFIG_KEY
      · subst h2; simp
      · by_cases h3 : r = AB0805_RA_CONTROL1
        · subst h3; simp
        · simp [h1, h2, h3]

/-- C16: `setDay` has no guard. For every day value it issues exactly one bus
transaction, a write of `(((day / 10) << 4) + day % 10) mod 256` to the DATE
register (0x04), which then holds that byte; the call is never a no-op, since
the state it returns always differs from the one it was given. -/
theorem C16_setDay_always_writes (self : AB0805) (day : Nat) :
    (self.setDay day).bus.log = self.bus.log ++
      [BusOp.write self.devAddr AB0805_RA_DATE ((((day / 10) <<< 4) + day % 10) % 256)] ∧
    (self.setDay day).bus.regs AB0805_RA_DATE = (((day / 10) <<< 4) + day % 10) % 256 ∧
    self.setDay day ≠ self := by
  refine ⟨?_, ?_, ?_⟩
  · simp [AB0805.setDay, AB0805.send, I2Cdev.writeByte]
  · simp [AB0805.setDay, AB0805.send, I2Cdev.writeByte]
  · intro h
    have hl := congrArg (fun s => s.bus.log.length) h
    simp [AB0805.setDay, AB0805.send, I2Cdev.writeByte] at hl

/-! ## Bit-level lemmas for the read-modify-write primitives -/

/-- Masking with a byte-sized mask only looks at the low byte. -/
theorem and_mod_256 (b m : Nat) (hm : m < 256) : b &&& m = (b % 256) &&& m := by
  have h1 : b % 256 = b &&& (2 ^ 8 - 1) := (Nat.and_pow_two_sub_one_eq_mod b 8).symm
  have h2 : (2 ^ 8 - 1) &&& m = m := by
    have h := Nat.and_pow_two_sub_one_eq_mod m 8
    rw [Nat.and_comm] at h
    rw [h]
    exact Nat.mod_eq_of_lt hm
  rw [h1, Nat.and_assoc, h2]

/-- Clearing the bits of a byte-sized mask commutes with truncation to a byte. -/
theorem andNot_mod_256 (b m : Nat) (hm : m < 256) : andNot b m % 256 = andNot (b % 256) m := by
  unfold andNot
  rw [and_mod_256 b m hm]
  have h := @Nat.and_le_left (b % 256) m
  omega

set_option maxRecDepth 100000 in
/-- On a byte, `b & ~0x80` clears bit 7 and keeps bits 0..6. -/
theorem andNot_128_byte : ∀ r, r < 256 → ∀ i, i < 8 →
    (andNot r 128).testBit i = (!decide (i = 7) && r.testBit i) := by
  decide

set_option maxRecDepth 100000 in
/-- On a byte, `b & ~0x40` clears bit 6 and keeps the other seven bits. -/
theorem andNot_64_byte : ∀ r, r < 256 → ∀ i, i < 8 →
    (andNot r 64).testBit i = (!decide (i = 6) && r.testBit i) := by
  decide

/-- The byte stored by `writeBit` with a nonzero `data`: bit `k` is set and
the other bits below 8 are those of `b`. -/
theorem setBit_testBit (b k i : Nat) (hi : i < 8) :
    ((b ||| (1 <<< k)) % 256).testBit i = (decide (i = k) || b.testBit i) := by
  have h : ((b ||| 2 ^ k) % 2 ^ 8).testBit i = (decide (i = k) || b.testBit i) := by
    rw [Nat.testBit_mod_two_pow, Nat.testBit_or, Nat.testBit_two_pow]
    simp [hi, Bool.or_comm, eq_comm]
  rw [Nat.one_shiftLeft]
  exact h

/-- The byte stored by `writeBit` with `data = 0` on bit 7: bit 7 is clear and
bits 0..6 are those of `b`. -/
theorem clearBit7_testBit (b i : Nat) (hi : i < 8) :
    (andNot b (1 <<< 7) % 256).testBit i = (!decide (i = 7) && b.testBit i) := by
  have hb : (b % 2 ^ 8).testBit i = b.testBit i := by
    rw [Nat.testBit_mod_two_pow]; simp [hi]
  have h := andNot_128_byte (b % 256) (Nat.mod_lt _ (by decide)) i hi
  rw [show (1 : Nat) <<< 7 = 128 from rfl, andNot_mod_256 b 128 (by decide), h]
  exact congrArg _ hb

/-- The byte stored by `writeBit` with `data = 0` on bit 6: bit 6 is clear and
the other bits below 8 are those of `b`. -/
theorem clearBit6_testBit (b i : Nat) (hi : i < 8) :
    (andNot b (1 <<< 6) % 256).testBit i = (!decide (i = 6) && b.testBit i) := by
  have hb : (b % 2 ^ 8).testBit i = b.testBit i := by
    rw [Nat.testBit_mod_two_pow]; simp [hi]
  have h := andNot_64_byte (b % 256) (Nat.mod_lt _ (by decide)) i hi
  rw [show (1 : Nat) <<< 6 = 64 from rfl, andNot_mod_256 b 64 (by decide), h]
  exact congrArg _ hb

/-- C13: `stopClock()` sets and `startClock()` clears bit 7 of CONTROL1 and
nothing else. For every prior register store, bits 0..6 of CONTROL1 (bit 6, the
12/24 bit, among them) read as before, every register other than CONTROL1 holds
what it held, and the cached mode flag is untouched. -/
theorem C13_clock_control_touches_stop_bit_only (self : AB0805) :
    (∀ i, i < 8 → (self.stopClock.bus.regs AB0805_RA_CONTROL1).testBit i
        = (decide (i = AB0805_CONTROL1_STOP_BIT)
            || (self.bus.regs AB0805_RA_CONTROL1).testBit i)) ∧
    (∀ i, i < 8 → (self.startClock.bus.regs AB0805_RA_CONTROL1).testBit i
        = (!decide (i = AB0805_CONTROL1_STOP_BIT)
            && (self.bus.regs AB0805_RA_CONTROL1).testBit i)) ∧
    (∀ r, r ≠ AB0805_RA_CONTROL1 →
        self.stopClock.bus.regs r = self.bus.regs r ∧
        self.startClock.bus.regs r = self.bus.regs r) ∧
    self.stopClock.mode12 = self.mode12 ∧ self.startClock.mode12 = self.mode12 := by
  refine ⟨?_, ?_, ?_, rfl, rfl⟩
  · intro i hi
    have h := setBit_testBit (self.bus.regs AB0805_RA_CONTROL1) 7 i hi
    simpa [AB0805.stopClock, AB0805.send, I2Cdev.writeBit, I2Cdev.writeByte, I2Cdev.readByte]
      using h
  · intro i hi
    have h := clearBit7_testBit (self.bus.regs AB0805_RA_CONTROL1) i hi
    simpa [AB0805.startClock, AB0805.send, I2Cdev.writeBit, I2Cdev.writeByte, I2Cdev.readByte]
      using h
  · intro r hr
    simp [AB0805.stopClock, AB0805.startClock, AB0805.send, I2Cdev.writeBit, I2Cdev.writeByte,
      I2Cdev.readByte, hr]

/-- C13 on a chip whose CONTROL1 holds 0x40: `stopClock()` sets bit 7,
`startClock()` leaves bit 6 as it was, and the HOURS register is untouched by
both. -/
theorem C13_clock_control_touches_stop_bit_only_witness :
    ((chip true 0x40 0x25 8).stopClock.bus.regs AB0805_RA_CONTROL1).testBit 7
        = (decide (7 = AB0805_CONTROL1_STOP_BIT)
            || ((chip true 0x40 0x25 8).bus.regs AB0805_RA_CONTROL1).testBit 7) ∧
    ((chip true 0x40 0x25 8).startClock.bus.regs AB0805_RA_CONTROL1).testBit 6
        = (!decide (6 = AB0805_CONTROL1_STOP_BIT)
            && ((chip true 0x40 0x25 8).bus.regs AB0805_RA_CONTROL1).testBit 6) ∧
    ((chip true 0x40 0x25 8).stopClock.bus.regs AB0805_RA_HOURS
        = (chip true 0x40 0x25 8).bus.regs AB0805_RA_HOURS ∧
      (chip true 0x40 0x25 8).startClock.bus.regs AB0805_RA_HOURS
        = (chip true 0x40 0x25 8).bus.regs AB0805_RA_HOURS) :=
  ⟨(C13_clock_control_touches_stop_bit_only (chip true 0x40 0x25 8)).1 7 (by decide),
   (C13_clock_control_touches_stop_bit_only (chip true 0x40 0x25 8)).2.1 6 (by decide),
   (C13_clock_control_touches_stop_bit_only (chip true 0x40 0x25 8)).2.2.1 AB0805_RA_HOURS
     (by decide)⟩

/-- The cached flag that `getMode` leaves behind is the 12/24 bit of CONTROL1. -/
theorem getMode_mode12 (self : AB0805) :
    self.getMode.2.mode12
      = (self.bus.regs AB0805_RA_CONTROL1).testBit AB0805_CONTROL1_12OR24_BIT := by
  have h := and_64_eq (self.bus.regs AB0805_RA_CONTROL1)
  simp only [AB0805.getMode, AB0805.recv, I2Cdev.readBit, I2Cdev.readByte,
    AB0805_CONTROL1_12OR24_BIT, Nat.reduceShiftLeft, h]
  cases (self.bus.regs AB0805_RA_CONTROL1).testBit 6 <;> simp

/-- C14: after `getMode()`, and likewise after `getHours12()` or `getHours24()`,
the cached mode flag is true exactly when bit 6 of CONTROL1 is set. `setMode(m)`
leaves the cached flag as it was; in the register store it changes only bit 6 of
CONTROL1 (set exactly when `m` is nonzero): the other bits of CONTROL1 and every
other register read as before. -/
theorem C14_cached_mode_flag (self : AB0805) (m : Nat) :
    self.getMode.2.mode12
      = (self.bus.regs AB0805_RA_CONTROL1).testBit AB0805_CONTROL1_12OR24_BIT ∧
    self.getHours12.2.mode12
      = (self.bus.regs AB0805_RA_CONTROL1).testBit AB0805_CONTROL1_12OR24_BIT ∧
    self.getHours24.2.mode12
      = (self.bus.regs AB0805_RA_CONTROL1).testBit AB0805_CONTROL1_12OR24_BIT ∧
    (self.setMode m).mode12 = self.mode12 ∧
    (∀ i, i < 8 → ((self.setMode m).bus.regs AB0805_RA_CONTROL1).testBit i
        = if i = AB0805_CONTROL1_12OR24_BIT then decide (m ≠ 0)
          else (self.bus.regs AB0805_RA_CONTROL1).testBit i) ∧
    (∀ r, r ≠ AB0805_RA_CONTROL1 → (self.setMode m).bus.regs r = self.bus.regs r) := by
  have h64 := and_64_eq (self.bus.regs AB0805_RA_CONTROL1)
  refine ⟨getMode_mode12 self, ?_, ?_, rfl, ?_, ?_⟩
  · simp only [AB0805.getHours12, AB0805.getMode, AB0805.recv, I2Cdev.readBit, I2Cdev.readByte,
      AB0805_CONTROL1_12OR24_BIT, Nat.reduceShiftLeft, h64]
    cases (self.bus.regs AB0805_RA_CONTROL1).testBit 6 <;> simp
  · simp only [AB0805.getHours24, AB0805.getMode, AB0805.recv, I2Cdev.readBit, I2Cdev.readByte,
      AB0805_CONTROL1_12OR24_BIT, Nat.reduceShiftLeft, h64]
    cases (self.bus.regs AB0805_RA_CONTROL1).testBit 6 <;> simp
  · intro i hi
    by_cases hm : m = 0
    · have h := clearBit6_testBit (self.bus.regs AB0805_RA_CONTROL1) i hi
      by_cases h6 : i = 6
      · simp [AB0805.setMode, AB0805.send, I2Cdev.writeBit, I2Cdev.writeByte, I2Cdev.readByte,
          hm, h6] at h ⊢
        exact h
      · simp [AB0805.setMode, AB0805.send, I2Cdev.writeBit, I2Cdev.writeByte, I2Cdev.readByte,
          hm, h6] at h ⊢
        exact h
    · have h := setBit_testBit (self.bus.regs AB0805_RA_CONTROL1) 6 i hi
      by_cases h6 : i = 6
      · simp [AB0805.setMode, AB0805.send, I2Cdev.writeBit, I2Cdev.writeByte, I2Cdev.readByte,
          hm, h6] at h ⊢
        exact h
      · simp [AB0805.setMode, AB0805.send, I2Cdev.writeBit, I2Cdev.writeByte, I2Cdev.readByte,
          hm, h6] at h ⊢
        exact h
  · intro r hr
    simp [AB0805.setMode, AB0805.send, I2Cdev.writeBit, I2Cdev.writeByte, I2Cdev.readByte, hr]

/-- C14 on a chip in 24-hour mode whose cached flag is false: `setMode(1)` sets
bit 6 of CONTROL1, keeps bit 7, leaves HOURS alone, and the cached flag stays
false. -/
theorem C14_cached_mode_flag_witness :
    ((chip false 0x00 0x25 8).setMode 1).mode12 = false ∧
    (((chip false 0x00 0x25 8).setMode 1).bus.regs AB0805_RA_CONTROL1).testBit 6
        = (if 6 = AB0805_CONTROL1_12OR24_BIT then decide (1 ≠ 0)
           else ((chip false 0x00 0x25 8).bus.regs AB0805_RA_CONTROL1).testBit 6) ∧
    (((chip false 0x00 0x25 8).setMode 1).bus.regs AB0805_RA_CONTROL1).testBit 7
        = (if 7 = AB0805_CONTROL1_12OR24_BIT then decide (1 ≠ 0)
           else ((chip false 0x00 0x25 8).bus.regs AB0805_RA_CONTROL1).testBit 7) ∧
    ((chip false 0x00 0x25 8).setMode 1).bus.regs AB0805_RA_HOURS
        = (chip false 0x00 0x25 8).bus.regs AB0805_RA_HOURS :=
  ⟨(C14_cached_mode_flag (chip false 0x00 0x25 8) 1).2.2.2.1,
   (C14_cached_mode_flag (chip false 0x00 0x25 8) 1).2.2.2.2.1 6 (by decide),
   (C14_cached_mode_flag (chip false 0x00 0x25 8) 1).2.2.2.2.1 7 (by decide),
   (C14_cached_mode_flag (chip false 0x00 0x25 8) 1).2.2.2.2.2 AB0805_RA_HOURS (by decide)⟩

/-- With an AM/PM summand of 0 or 0x20, the packed form of an hour up to 12 has
both nibbles in 0..9. -/
theorem hours12_nibbles : ∀ h, h < 13 →
    isBCD ((0 + ((h / 10) <<< 4) + h % 10) % 256) ∧
    isBCD ((0x20 + ((h / 10) <<< 4) + h % 10) % 256) := by
  unfold isBCD
  decide

/-- The packed form of a value below 100 is two-digit BCD. -/
theorem bcd_isBCD (x : Nat) (h : x < 100) : isBCD ((((x / 10) <<< 4) + x % 10) % 256) :=
  bcd_nibbles x h

/-- C15: whatever the argument, `ampm` and the cached mode flag, each of
`setHundredths`, `setSeconds`, `setMinutes`, `setMonth`, `setHours12` and
`setHours24` either does nothing or issues a single write, to its own register,
of a byte whose low nibble and high nibble are both in 0..9. -/
theorem C15_range_checked_setters_write_bcd (self : AB0805) (x ampm : Nat) :
    wroteNothingOrBCD AB0805_RA_HUNDREDTHS self (self.setHundredths x) ∧
    wroteNothingOrBCD AB0805_RA_SECONDS self (self.setSeconds x) ∧
    wroteNothingOrBCD AB0805_RA_MINUTES self (self.setMinutes x) ∧
    wroteNothingOrBCD AB0805_RA_MONTH self (self.setMonth x) ∧
    wroteNothingOrBCD AB0805_RA_HOURS self (self.setHours12 x ampm) ∧
    wroteNothingOrBCD AB0805_RA_HOURS self (self.setHours24 x) := by
  refine ⟨?_, ?_, ?_, ?_, ?_, ?_⟩
  · by_cases hx : x > 99
    · left; rw [AB0805.setHundredths, if_pos hx]
    · right; rw [AB0805.setHundredths, if_neg hx]
      refine ⟨_, rfl, ?_⟩
      rw [Nat.mod_mod]
      exact bcd_isBCD x (by omega)
  · by_cases hx : x > 59
    · left; rw [AB0805.setSeconds, if_pos hx]
    · right; rw [AB0805.setSeconds, if_neg hx]
      refine ⟨_, rfl, ?_⟩
      rw [Nat.mod_mod]
      have h := bcd_isBCD x (by omega)
      simpa using h
  · by_cases hx : x > 59
    · left; rw [AB0805.setMinutes, if_pos hx]
    · right; rw [AB0805.setMinutes, if_neg hx]
      refine ⟨_, rfl, ?_⟩
      rw [Nat.mod_mod]
      exact bcd_isBCD x (by omega)
  · by_cases hx : x < 1 ∨ x > 12
    · left; rw [AB0805.setMonth, if_pos hx]
    · right; rw [AB0805.setMonth, if_neg hx]
      refine ⟨_, rfl, ?_⟩
      rw [Nat.mod_mod]
      exact bcd_isBCD x (by omega)
  · by_cases hx : x > 12 ∨ x < 1
    · left; rw [AB0805.setHours12, if_pos hx]
    · right; rw [AB0805.setHours12, if_neg hx]
      cases hm : self.mode12
      · simp only [Bool.false_eq_true, if_false]
        refine ⟨_, rfl, ?_⟩
        rw [Nat.mod_mod]
        by_cases ha : ampm > 0
        · simp only [if_pos ha]
          have h12 : (x + 12) % 256 = x + 12 := Nat.mod_eq_of_lt (by omega)
          rw [h12]
          by_cases h24 : x + 12 = 24
          · have h0 : ¬ x + 12 = 0 := by omega
            simp only [if_neg h0, if_pos h24]
            exact bcd_isBCD 12 (by decide)
          · have h0 : ¬ x + 12 = 0 := by omega
            simp only [if_neg h0, if_neg h24]
            exact bcd_isBCD (x + 12) (by omega)
        · have h0 : ¬ x = 0 := by omega
          have h24 : ¬ x = 24 := by omega
          simp only [if_neg ha, if_neg h0, if_neg h24]
          exact bcd_isBCD x (by omega)
      · simp only [if_true]
        refine ⟨_, rfl, ?_⟩
        rw [Nat.mod_mod]
        by_cases ha : ampm > 0
        · simp only [if_pos ha]
          exact (hours12_nibbles x (by omega)).2
        · have ha0 : ampm = 0 := by omega
          subst ha0
          simp only [if_neg ha]
          exact (hours12_nibbles x (by omega)).1
  · by_cases hx : x > 23
    · left; rw [AB0805.setHours24, if_pos hx]
    · right; rw [AB0805.setHours24, if_neg hx]
      cases hm : self.mode12
      · simp only [Bool.false_eq_true, if_false]
        refine ⟨_, rfl, ?_⟩
        rw [Nat.mod_mod]
        exact bcd_isBCD x (by omega)
      · simp only [if_true]
        refine ⟨_, rfl, ?_⟩
        rw [Nat.mod_mod]
        by_cases h11 : x > 11
        · by_cases h12 : x > 12
          · have hm12 : (x - 12) % 256 = x - 12 := Nat.mod_eq_of_lt (by omega)
            simp only [if_pos h11, if_pos h12, hm12]
            exact (hours12_nibbles (x - 12) (by omega)).2
          · have h0 : ¬ x = 0 := by omega
            simp only [if_pos h11, if_neg h12, if_neg h0]
            exact (hours12_nibbles x (by omega)).2
        · have h12 : ¬ x > 12 := by omega
          by_cases h0 : x = 0
          · simp only [if_neg h11, if_neg h12, if_pos h0]
            exact (hours12_nibbles 12 (by decide)).1
          · simp only [if_neg h11, if_neg h12, if_neg h0]
            exact (hours12_nibbles x (by omega)).1

/-- C17: `setDateTime24` is not all-or-nothing. For every argument and every
prior state its result is that of running `setSeconds`, `setMinutes`,
`setHours24`, `setYear`, `setMonth`, `setDay` in that order, each with its own
guard and no rollback. In particular, when only the month is out of range (0 or
above 12) and seconds, minutes, hours and year are in range, it issues exactly
five writes, to SECONDS, MINUTES, HOURS, YEAR and DATE, each of the encoding of
the given value (for HOURS the byte `setHours24` alone would store, which is the
BCD byte when the cached flag says 24-hour mode), and the MONTH register keeps
its prior content. -/
theorem C17_setDateTime24_is_not_atomic (self : AB0805)
    (year month day hours minutes seconds : Nat) :
    self.setDateTime24 year month day hours minutes seconds
      = (((((self.setSeconds seconds).setMinutes minutes).setHours24 hours).setYear
          year).setMonth month).setDay day ∧
    (month = 0 ∨ month > 12 → seconds ≤ 59 → minutes ≤ 59 → hours ≤ 23 →
      2000 ≤ year → year < 65536 →
      (self.setDateTime24 year month day hours minutes seconds).bus.log
        = self.bus.log ++
          [BusOp.write self.devAddr AB0805_RA_SECONDS (bcdByte seconds),
           BusOp.write self.devAddr AB0805_RA_MINUTES (bcdByte minutes),
           BusOp.write self.devAddr AB0805_RA_HOURS
             ((self.setHours24 hours).bus.regs AB0805_RA_HOURS),
           BusOp.write self.devAddr AB0805_RA_YEAR (bcdByte (year - 2000)),
           BusOp.write self.devAddr AB0805_RA_DATE (bcdByte day)] ∧
      (self.setDateTime24 year month day hours minutes seconds).bus.regs AB0805_RA_SECONDS
        = bcdByte seconds ∧
      (self.setDateTime24 year month day hours minutes seconds).bus.regs AB0805_RA_MINUTES
        = bcdByte minutes ∧
      (self.setDateTime24 year month day hours minutes seconds).bus.regs AB0805_RA_HOURS
        = (self.setHours24 hours).bus.regs AB0805_RA_HOURS ∧
      (self.mode12 = false →
        (self.setDateTime24 year month day hours minutes seconds).bus.regs AB0805_RA_HOURS
          = bcdByte hours) ∧
      (self.setDateTime24 year month day hours minutes seconds).bus.regs AB0805_RA_YEAR
        = bcdByte (year - 2000) ∧
      (self.setDateTime24 year month day hours minutes seconds).bus.regs AB0805_RA_DATE
        = bcdByte day ∧
      (self.setDateTime24 year month day hours minutes seconds).bus.regs AB0805_RA_MONTH
        = self.bus.regs AB0805_RA_MONTH) := by
  refine ⟨rfl, ?_⟩
  intro hmonth hs hmin hh hy hy16
  have h1 : ¬ seconds > 59 := by omega
  have h2 : ¬ minutes > 59 := by omega
  have h3 : ¬ hours > 23 := by omega
  have h4 : ¬ year < 2000 := by omega
  have h5 : month < 1 ∨ month > 12 := by omega
  have h6 : (year - 2000) % 65536 = year - 2000 := Nat.mod_eq_of_lt (by omega)
  rcases self with ⟨d, buf, m, bus⟩
  cases m <;>
    refine ⟨?_, ?_, ?_, ?_, ?_, ?_, ?_, ?_⟩ <;>
    simp only [AB0805.setDateTime24, AB0805.setTime24, AB0805.setDate, AB0805.setSeconds,
      AB0805.setMinutes, AB0805.setHours24, AB0805.setYear, AB0805.setMonth, AB0805.setDay,
      if_neg h1, if_neg h2, if_neg h3, if_neg h4, if_pos h5, h6, bcdByte] <;>
    simp [AB0805.send, I2Cdev.writeByte]

/-- C17 at concrete inputs on a 24-hour chip whose registers started at zero.
With every argument in range, `setDateTime24(2024, 6, 15, 13, 45, 30)` is the
six setters in order. With the month out of range,
`setDateTime24(2024, 13, 15, 13, 45, 30)` makes five writes (0x30, 0x45, 0x13,
0x24, 0x15) and MONTH still holds 0. -/
theorem C17_setDateTime24_is_not_atomic_witness :
    (chip false 0x00 0x00 8).setDateTime24 2024 6 15 13 45 30
      = ((((((chip false 0x00 0x00 8).setSeconds 30).setMinutes 45).setHours24 13).setYear
          2024).setMonth 6).setDay 15 ∧
    ((chip false 0x00 0x00 8).setDateTime24 2024 6 15 13 45 30).bus.regs AB0805_RA_MONTH
      = 0x06 ∧
    ((chip false 0x00 0x00 8).setDateTime24 2024 13 15 13 45 30).bus.log
      = (chip false 0x00 0x00 8).bus.log ++
        [BusOp.write (chip false 0x00 0x00 8).devAddr AB0805_RA_SECONDS (bcdByte 30),
         BusOp.write (chip false 0x00 0x00 8).devAddr AB0805_RA_MINUTES (bcdByte 45),
         BusOp.write (chip false 0x00 0x00 8).devAddr AB0805_RA_HOURS
           (((chip false 0x00 0x00 8).setHours24 13).bus.regs AB0805_RA_HOURS),
         BusOp.write (chip false 0x00 0x00 8).devAddr AB0805_RA_YEAR (bcdByte (2024 - 2000)),
         BusOp.write (chip false 0x00 0x00 8).devAddr AB0805_RA_DATE (bcdByte 15)] ∧
    ((chip false 0x00 0x00 8).setDateTime24 2024 13 15 13 45 30).bus.regs AB0805_RA_HOURS
      = bcdByte 13 ∧
    ((chip false 0x00 0x00 8).setDateTime24 2024 13 15 13 45 30).bus.regs AB0805_RA_MONTH
      = (chip false 0x00 0x00 8).bus.regs AB0805_RA_MONTH :=
  ⟨(C17_setDateTime24_is_not_atomic (chip false 0x00 0x00 8) 2024 6 15 13 45 30).1,
   by decide,
   ((C17_setDateTime24_is_not_atomic (chip false 0x00 0x00 8) 2024 13 15 13 45 30).2
      (by decide) (by decide) (by decide) (by decide) (by decide) (by decide)).1,
   ((C17_setDateTime24_is_not_atomic (chip false 0x00 0x00 8) 2024 13 15 13 45 30).2
      (by decide) (by decide) (by decide) (by decide) (by decide) (by decide)).2.2.2.2.1 rfl,
   ((C17_setDateTime24_is_not_atomic (chip false 0x00 0x00 8) 2024 13 15 13 45 30).2
      (by decide) (by decide) (by decide) (by decide) (by decide) (by decide)).2.2.2.2.2.2.2⟩

/-- Under the 24-hour cached flag `setHours12` stores the BCD byte of the
equivalent 24-hour hour for every hour and AM/PM value except 12 AM. -/
theorem setHours12_flag24_except_midnight (self : AB0805) (h ampm : Nat)
    (hf : self.mode12 = false) (h1 : 1 ≤ h) (h12 : h ≤ 12) (ha : ampm = 0 ∨ ampm = 1)
    (hne : ¬ (h = 12 ∧ ampm = 0)) :
    (self.setHours12 h ampm).bus.regs AB0805_RA_HOURS = bcdByte (hour24Of h ampm) := by
  have hx : ¬ (h > 12 ∨ h < 1) := by omega
  rcases self with ⟨d, buf, m, bus⟩
  simp only at hf
  subst hf
  simp only [AB0805.setHours12, if_neg hx]
  rcases ha with rfl | rfl
  · interval_cases h <;> first | rfl | exact absurd ⟨rfl, rfl⟩ hne
  · interval_cases h <;> rfl

/-- C18 (the code departs from the claim): with the cached flag saying 24-hour
mode, `setHours12(12, 0)`, 12 AM, writes 0x12 to HOURS, the encoding of hour 12
(noon), where the equivalent 24-hour hour is 0 and its encoding 0x00. -/
theorem C18_setHours12_midnight_writes_noon :
    (chip false 0x00 0x00 8).mode12 = false ∧
    ((chip false 0x00 0x00 8).setHours12 12 0).bus.log
      = [BusOp.write AB0805_DEFAULT_ADDRESS AB0805_RA_HOURS 0x12] ∧
    ((chip false 0x00 0x00 8).setHours12 12 0).bus.regs AB0805_RA_HOURS = bcdByte 12 ∧
    hour24Of 12 0 = 0 ∧
    ((chip false 0x00 0x00 8).setHours12 12 0).bus.regs AB0805_RA_HOURS
      ≠ bcdByte (hour24Of 12 0) := by
  decide

/-- Bit 5 of the 24-hour BCD byte of an hour is the second tens bit: it is set
exactly for the hours 20..23. -/
theorem bcd24_bit5 : ∀ h, h < 24 → ((bcdByte h &&& 32) % 256 ≠ 0 ↔ 20 ≤ h) := by
  decide

/-- C19 as stated fails: on a chip in 24-hour mode whose HOURS register holds
0x13, the 24-hour BCD encoding of 13, `getAMPM()` returns 0 although 13 ≥ 12,
and so do the `ampm` outputs of `getTime12` and `getDateTime12`. -/
theorem C19_getAMPM_of_hour13_is_zero :
    ((chip false 0x00 0x13 8).bus.regs AB0805_RA_CONTROL1).testBit 6 = false ∧
    (chip false 0x00 0x13 8).bus.regs AB0805_RA_HOURS = bcdByte 13 ∧
    (chip false 0x00 0x13 8).getAMPM.1 = 0 ∧
    (chip false 0x00 0x13 8).getTime12.1.2 = 0 ∧
    (chip false 0x00 0x13 8).getDateTime12.1.2.2 = 0 := by
  decide

/-- In 24-hour mode the composites `getTime12` and `getDateTime12` hand out as
`ampm` the value of `getAMPM()`, bit 5 of HOURS as it stands; unlike the hour
they report, it is not converted from the 24-hour encoding. -/
theorem composite_ampm_is_raw_bit5 (self : AB0805)
    (hmode : (self.bus.regs AB0805_RA_CONTROL1).testBit AB0805_CONTROL1_12OR24_BIT = false) :
    self.getTime12.1.2 = (self.bus.regs AB0805_RA_HOURS &&& 0x20) % 256 ∧
    self.getDateTime12.1.2.2 = (self.bus.regs AB0805_RA_HOURS &&& 0x20) % 256 := by
  have h64 := and_64_eq (self.bus.regs AB0805_RA_CONTROL1)
  simp only [AB0805_CONTROL1_12OR24_BIT] at hmode
  constructor
  · simp [AB0805.getTime12, AB0805.getHours12, AB0805.getMinutes, AB0805.getSeconds,
      AB0805.getMode, AB0805.getAMPM, AB0805.recv, I2Cdev.readBit, I2Cdev.readByte,
      AB0805_CONTROL1_12OR24_BIT, AB0805_HOURS_AMPM_BIT, h64, hmode]
  · simp [AB0805.getDateTime12, AB0805.getDate, AB0805.getYear, AB0805.getMonth, AB0805.getDay,
      AB0805.getTime12, AB0805.getHours12, AB0805.getMinutes, AB0805.getSeconds,
      AB0805.getMode, AB0805.getAMPM, AB0805.recv, I2Cdev.readBit, I2Cdev.readByte,
      AB0805_CONTROL1_12OR24_BIT, AB0805_HOURS_AMPM_BIT, h64, hmode]

/-- C19, amended: on a chip in 24-hour mode whose HOURS register holds the
24-hour BCD encoding of an hour `h` in 0..23, `getAMPM()` returns bit 5 of HOURS
as it stands, and that value is nonzero exactly when `h ≥ 20`: bit 5 is the
second tens bit of the 24-hour encoding. -/
theorem C19_getAMPM_in_24h_mode (self : AB0805) (h : Nat)
    (_hmode : (self.bus.regs AB0805_RA_CONTROL1).testBit AB0805_CONTROL1_12OR24_BIT = false)
    (hreg : self.bus.regs AB0805_RA_HOURS = bcdByte h) (hh : h ≤ 23) :
    self.getAMPM.1 = (self.bus.regs AB0805_RA_HOURS &&& 0x20) % 256 ∧
    (self.getAMPM.1 ≠ 0 ↔ 20 ≤ h) := by
  have hb := bcd24_bit5 h (by omega)
  have e1 : self.getAMPM.1 = (self.bus.regs AB0805_RA_HOURS &&& 0x20) % 256 := by
    simp [AB0805.getAMPM, AB0805.recv, I2Cdev.readBit, I2Cdev.readByte, AB0805_HOURS_AMPM_BIT]
  refine ⟨e1, ?_⟩
  rw [e1, hreg]
  exact hb

/-- C19, amended, at hour 21 (HOURS = 0x21): `getAMPM()` returns 0x20, which is
nonzero. -/
theorem C19_getAMPM_in_24h_mode_witness :
    (chip false 0x00 0x21 8).getAMPM.1
      = ((chip false 0x00 0x21 8).bus.regs AB0805_RA_HOURS &&& 0x20) % 256 ∧
    ((chip false 0x00 0x21 8).getAMPM.1 ≠ 0 ↔ 20 ≤ 21) :=
  C19_getAMPM_in_24h_mode (chip false 0x00 0x21 8) 21 (by decide) (by decide) (by decide)

/-- C20: with the cached flag saying 12-hour mode, for every `h` in 0..23
`setHours24(h)` issues a single write, to HOURS, of a byte whose bits 7:6 are
zero, whose bit 5 is set exactly when `h ≥ 12`, and whose bits 4:0 are the BCD
byte of the 12-hour value of `h` (12 for 0 and 12, `h` for 1..11, `h - 12` for
13..23). -/
theorem C20_setHours24_under_12h_flag (self : AB0805) (h : Nat)
    (hf : self.mode12 = true) (hh : h ≤ 23) :
    ∃ v, (self.setHours24 h).bus.log
        = self.bus.log ++ [BusOp.write self.devAddr AB0805_RA_HOURS v] ∧
      (self.setHours24 h).bus.regs AB0805_RA_HOURS = v ∧
      v / 64 = 0 ∧
      v.testBit AB0805_HOURS_AMPM_BIT = decide (12 ≤ h) ∧
      v % 32 = bcdByte (hour12Of h) := by
  have hx : ¬ h > 23 := by omega
  rcases self with ⟨d, buf, m, bus⟩
  simp only at hf
  subst hf
  simp only [AB0805.setHours24, if_neg hx]
  interval_cases h <;> exact ⟨_, rfl, rfl, by decide, by decide, by decide⟩

/-- C20 at `setHours24(0)`, `setHours24(12)` and `setHours24(17)` on a 12-hour
chip: the bytes are 0x12, 0x32 and 0x25. -/
theorem C20_setHours24_under_12h_flag_witness :
    ((chip true 0x40 0x00 8).setHours24 0).bus.regs AB0805_RA_HOURS = 0x12 ∧
    ((chip true 0x40 0x00 8).setHours24 12).bus.regs AB0805_RA_HOURS = 0x32 ∧
    ∃ v, ((chip true 0x40 0x00 8).setHours24 17).bus.log
        = (chip true 0x40 0x00 8).bus.log
          ++ [BusOp.write (chip true 0x40 0x00 8).devAddr AB0805_RA_HOURS v] ∧
      ((chip true 0x40 0x00 8).setHours24 17).bus.regs AB0805_RA_HOURS = v ∧
      v / 64 = 0 ∧
      v.testBit AB0805_HOURS_AMPM_BIT = decide (12 ≤ 17) ∧
      v % 32 = bcdByte (hour12Of 17) :=
  ⟨by decide, by decide, C20_setHours24_under_12h_flag (chip true 0x40 0x00 8) 17 rfl (by decide)⟩

/-! ## Frame of the field setters -/

/-- A call that returns the state it was given touches no register. -/
theorem touchesOnly_self (reg : Nat) (self : AB0805) : touchesOnly reg self self :=
  ⟨fun _ _ => rfl, rfl, rfl, rfl, [], by simp, by simp⟩

/-- A single `writeByte` to `reg` touches only `reg`. -/
theorem touchesOnly_writeByte (reg v : Nat) (self : AB0805) :
    touchesOnly reg self (self.send (I2Cdev.writeByte self.bus self.devAddr reg v)) := by
  refine ⟨?_, rfl, rfl, rfl, [BusOp.write self.devAddr reg (v % 256)], rfl, ?_⟩
  · intro r hr
    simp [AB0805.send, I2Cdev.writeByte, hr]
  · intro op hop
    simp at hop
    subst hop
    rfl

/-- A `writeBits` on `reg`, a read of `reg` followed by a write to `reg`,
touches only `reg`. -/
theorem touchesOnly_writeBits (reg bitStart length data : Nat) (self : AB0805) :
    touchesOnly reg self
      (self.send (I2Cdev.writeBits self.bus self.devAddr reg bitStart length data)) := by
  refine ⟨?_, rfl, rfl, rfl, ?_⟩
  · intro r hr
    simp [AB0805.send, I2Cdev.writeBits, I2Cdev.writeByte, I2Cdev.readByte, hr]
  · refine ⟨[BusOp.read self.devAddr reg, BusOp.write self.devAddr reg
      ((I2Cdev.writeBits self.bus self.devAddr reg bitStart length data).regs reg)], ?_, ?_⟩
    · simp [AB0805.send, I2Cdev.writeBits, I2Cdev.writeByte, I2Cdev.readByte]
    · intro op hop
      simp at hop
      rcases hop with rfl | rfl <;> rfl

/-- C21: each field setter touches at most its own register, for every argument
and every prior state: `setHundredths` 0x00, `setSeconds` 0x01, `setMinutes`
0x02, `setHours12` and `setHours24` 0x03, `setDay` 0x04, `setMonth` 0x05,
`setYear` 0x06, `setDayOfWeek` 0x07. Every other register holds what it held,
the cached mode flag (and `devAddr`, `buffer`) is unchanged, and every bus
transaction of the call addresses that one register. -/
theorem C21_setters_touch_own_register_only (self : AB0805) (x ampm : Nat) :
    touchesOnly AB0805_RA_HUNDREDTHS self (self.setHundredths x) ∧
    touchesOnly AB0805_RA_SECONDS self (self.setSeconds x) ∧
    touchesOnly AB0805_RA_MINUTES self (self.setMinutes x) ∧
    touchesOnly AB0805_RA_HOURS self (self.setHours12 x ampm) ∧
    touchesOnly AB0805_RA_HOURS self (self.setHours24 x) ∧
    touchesOnly AB0805_RA_DATE self (self.setDay x) ∧
    touchesOnly AB0805_RA_MONTH self (self.setMonth x) ∧
    touchesOnly AB0805_RA_YEAR self (self.setYear x) ∧
    touchesOnly AB0805_RA_DAY self (self.setDayOfWeek x) := by
  refine ⟨?_, ?_, ?_, ?_, ?_, ?_, ?_, ?_, ?_⟩
  · unfold AB0805.setHundredths
    split
    · exact touchesOnly_self _ _
    · exact touchesOnly_writeByte _ _ _
  · unfold AB0805.setSeconds
    split
    · exact touchesOnly_self _ _
    · exact touchesOnly_writeByte _ _ _
  · unfold AB0805.setMinutes
    split
    · exact touchesOnly_self _ _
    · exact touchesOnly_writeByte _ _ _
  · unfold AB0805.setHours12
    split
    · exact touchesOnly_self _ _
    · split
      · exact touchesOnly_writeByte _ _ _
      · exact touchesOnly_writeByte _ _ _
  · unfold AB0805.setHours24
    split
    · exact touchesOnly_self _ _
    · split
      · exact touchesOnly_writeByte _ _ _
      · exact touchesOnly_writeByte _ _ _
  · exact touchesOnly_writeByte _ _ _
  · unfold AB0805.setMonth
    split
    · exact touchesOnly_self _ _
    · exact touchesOnly_writeByte _ _ _
  · unfold AB0805.setYear
    split
    · exact touchesOnly_self _ _
    · exact touchesOnly_writeByte _ _ _
  · unfold AB0805.setDayOfWeek
    split
    · exact touchesOnly_self _ _
    · exact touchesOnly_writeBits _ _ _ _ _

/-- C21 on a 12-hour chip (CONTROL1 = 0x40, HOURS = 0x25): `setSeconds(30)`
leaves HOURS alone, `setDayOfWeek(3)` leaves CONTROL1 alone, `setYear(2024)`
leaves the DAY register alone, and `setHours24(17)` leaves the cached mode flag
and the SECONDS register alone. -/
theorem C21_setters_touch_own_register_only_witness :
    ((chip true 0x40 0x25 8).setSeconds 30).bus.regs AB0805_RA_HOURS
      = (chip true 0x40 0x25 8).bus.regs AB0805_RA_HOURS ∧
    ((chip true 0x40 0x25 8).setDayOfWeek 3).bus.regs AB0805_RA_CONTROL1
      = (chip true 0x40 0x25 8).bus.regs AB0805_RA_CONTROL1 ∧
    ((chip true 0x40 0x25 8).setYear 2024).bus.regs AB0805_RA_DAY
      = (chip true 0x40 0x25 8).bus.regs AB0805_RA_DAY ∧
    ((chip true 0x40 0x25 8).setHours24 17).mode12 = (chip true 0x40 0x25 8).mode12 ∧
    ((chip true 0x40 0x25 8).setHours24 17).bus.regs AB0805_RA_SECONDS
      = (chip true 0x40 0x25 8).bus.regs AB0805_RA_SECONDS :=
  ⟨(C21_setters_touch_own_register_only (chip true 0x40 0x25 8) 30 0).2.1.1
      AB0805_RA_HOURS (by decide),
   (C21_setters_touch_own_register_only (chip true 0x40 0x25 8) 3 0).2.2.2.2.2.2.2.2.1
      AB0805_RA_CONTROL1 (by decide),
   (C21_setters_touch_own_register_only (chip true 0x40 0x25 8) 2024 0).2.2.2.2.2.2.2.1.1
      AB0805_RA_DAY (by decide),
   (C21_setters_touch_own_register_only (chip true 0x40 0x25 8) 17 0).2.2.2.2.1.2.1,
   (C21_setters_touch_own_register_only (chip true 0x40 0x25 8) 17 0).2.2.2.2.1.1
      AB0805_RA_SECONDS (by decide)⟩
